import Mathlib

/-!
Shallow embedding of the puppeteer-mcp-server tool-dispatch core.

The two source variants (the stdio server in src/unnamed/part_000 and the
HTTP server in src/src/http-server.ts) share the same schemas, tool catalog,
dispatcher and session operations verbatim; the embedding below follows the
stdio variant line by line and notes the matching lines of both files.

External collaborators (the puppeteer browser engine, the base64 encoder,
the zod URL syntax check) are modelled as opaque capabilities: the engine is
a record of functions, one per engine call the source makes, each returning
an Except to model a thrown engine error; the URL validity check is a
Bool-valued parameter. JavaScript truthiness on optional values is modelled
explicitly by the js* helpers.
-/

namespace PuppeteerMCP

/-- One item of a response envelope (the content array built by every
handler): either a text item or a base64 image item with a media type. -/
inductive ContentItem where
  | text (s : String)
  | image (data : String) (mimeType : String)
deriving DecidableEq

/-- A response envelope: the ordered content list of one invocation. -/
abbrev Envelope := List ContentItem

/-- An engine browser handle (opaque; identity only). -/
structure BrowserHandle where
  id : Nat
deriving DecidableEq

/-- An engine page handle (opaque; identity only). -/
structure PageHandle where
  id : Nat
deriving DecidableEq

/-- An engine element handle, as returned by page.$ (opaque). -/
structure ElementHandle where
  id : Nat
deriving DecidableEq

/-- The session state: the two private fields of the server class,
browser: Browser | null and page: Page | null. -/
structure Session where
  browser : Option BrowserHandle
  page : Option PageHandle
deriving DecidableEq

/-- The state at construction time: both fields null. -/
def initialSession : Session := { browser := none, page := none }

/-- The waitUntil enum of NavigateSchema. -/
inductive WaitUntil where
  | load
  | domcontentloaded
  | networkidle0
  | networkidle2
deriving DecidableEq

/-- The format enum of ScreenshotSchema. -/
inductive ImageFormat where
  | png
  | jpeg
  | webp
deriving DecidableEq

/-- Rendering of an ImageFormat back to its wire string. -/
def ImageFormat.toStr : ImageFormat → String
  | .png => "png"
  | .jpeg => "jpeg"
  | .webp => "webp"

/-- The viewport sub-object of the raw launch arguments; width and height
may each be absent. -/
structure ViewportArgs where
  width : Option Int := none
  height : Option Int := none
deriving DecidableEq

/-- The untyped argument object of a tool invocation (args: any in the
source). Each field a handler may read is optional; absent means the
caller did not supply it. -/
structure RawArgs where
  headless : Option Bool := none
  viewport : Option ViewportArgs := none
  url : Option String := none
  waitUntil : Option WaitUntil := none
  fullPage : Option Bool := none
  format : Option ImageFormat := none
  quality : Option Int := none
  selector : Option String := none
  text : Option String := none
  script : Option String := none
deriving DecidableEq

/-- JavaScript truthiness of an optional boolean (undefined is falsy). -/
def jsTruthyB : Option Bool → Bool
  | some b => b
  | none => false

/-- JavaScript truthiness of an optional number (undefined and 0 are
falsy). -/
def jsTruthyNum : Option Int → Bool
  | some q => q != 0
  | none => false

/-- JavaScript truthiness of an optional string (undefined and the empty
string are falsy). -/
def jsTruthyStr : Option String → Bool
  | some s => s != ""
  | none => false

/-- The JavaScript expression v or-else d on an optional number, as in
args.viewport.width or-default 1280: undefined and 0 both fall back. -/
def jsOrNum (v : Option Int) (d : Int) : Int :=
  match v with
  | some w => if w = 0 then d else w
  | none => d

/-- The options object handed to the engine launch call: headless flag and
optional default viewport. -/
structure LaunchOptions where
  headless : Bool
  defaultViewport : Option (Int × Int)
deriving DecidableEq

/-- The options object handed to the engine screenshot call: fullPage,
type, and quality only when the handler chose to forward it. -/
structure ShotOptions where
  fullPage : Bool
  shotType : ImageFormat
  quality : Option Int
deriving DecidableEq

/-- The external browser-automation engine, one function per engine call
the source makes; an error value models a thrown engine exception. -/
structure Engine where
  launch : LaunchOptions → Except String BrowserHandle
  newPage : BrowserHandle → Except String PageHandle
  closeB : BrowserHandle → Except String Unit
  goto : PageHandle → String → WaitUntil → Except String Unit
  shot : PageHandle → ShotOptions → Except String (Option String)
  query : PageHandle → String → Except String (Option ElementHandle)
  elementText : PageHandle → ElementHandle → Except String (Option String)
  bodyText : PageHandle → Except String (Option String)
  clickE : PageHandle → String → Except String Unit
  typeE : PageHandle → String → String → Except String Unit
  evalScript : PageHandle → String → Except String String
  toBase64 : String → String

/-- Parsed navigate arguments after schema validation and defaults. -/
structure NavigateParsed where
  url : String
  waitUntil : WaitUntil
deriving DecidableEq

/-- Parsed screenshot arguments after schema validation and defaults. -/
structure ScreenshotParsed where
  fullPage : Bool
  format : ImageFormat
  quality : Option Int
deriving DecidableEq

/-- NavigateSchema.parse: url is a required string that must pass the URL
syntax check (the check itself is the external zod url validator, passed in
as urlValid); waitUntil defaults to load. -/
def NavigateSchema.parse (urlValid : String → Bool) (a : RawArgs) :
    Except String NavigateParsed :=
  match a.url with
  | none => .error "Required"
  | some u =>
    if urlValid u then .ok { url := u, waitUntil := a.waitUntil.getD .load }
    else .error "Must be a valid URL"

/-- ScreenshotSchema.parse: fullPage defaults to false, format defaults to
png, quality is optional but must lie in [0, 100] when supplied. -/
def ScreenshotSchema.parse (a : RawArgs) : Except String ScreenshotParsed :=
  match a.quality with
  | some q =>
    if q < 0 then .error "Number must be greater than or equal to 0"
    else if 100 < q then .error "Number must be less than or equal to 100"
    else .ok { fullPage := a.fullPage.getD false, format := a.format.getD .png,
               quality := some q }
  | none =>
    .ok { fullPage := a.fullPage.getD false, format := a.format.getD .png,
          quality := none }

/-- GetTextSchema.parse: selector is an optional string; always succeeds. -/
def GetTextSchema.parse (a : RawArgs) : Except String (Option String) :=
  .ok a.selector

/-- ClickSchema.parse: selector is a required string. -/
def ClickSchema.parse (a : RawArgs) : Except String String :=
  match a.selector with
  | none => .error "Required"
  | some sel => .ok sel

/-- TypeSchema.parse: selector and text are required strings. -/
def TypeSchema.parse (a : RawArgs) : Except String (String × String) :=
  match a.selector, a.text with
  | some sel, some t => .ok (sel, t)
  | _, _ => .error "Required"

/-- EvaluateSchema.parse: script is a required string. -/
def EvaluateSchema.parse (a : RawArgs) : Except String String :=
  match a.script with
  | none => .error "Required"
  | some sc => .ok sc

/-- The message thrown by ensureBrowserAndPage when no browser is open. -/
def notLaunchedMsg : String := "Browser not launched. Use puppeteer_launch first."

/-- ensureBrowserAndPage (part_000 lines 213-220, http-server.ts 245-252):
throws when no browser is open; lazily creates a page when the browser is
open but no page exists. Returns the possibly-updated session and either
the page to use or the thrown message. -/
def ensureBrowserAndPage (E : Engine) (s : Session) :
    Session × Except String PageHandle :=
  match s.browser with
  | none => (s, .error notLaunchedMsg)
  | some b =>
    match s.page with
    | some p => (s, .ok p)
    | none =>
      match E.newPage b with
      | .ok p => ({ s with page := some p }, .ok p)
      | .error e => (s, .error e)

/-- The launch options object built by launchBrowser (part_000 lines
227-236): headless is args.headless with nullish default true; the
viewport, when supplied, uses width or-else 1280 and height or-else 720. -/
def launchEngineOptions (a : RawArgs) : LaunchOptions :=
  { headless := a.headless.getD true,
    defaultViewport := a.viewport.map fun v => (jsOrNum v.width 1280, jsOrNum v.height 720) }

/-- The launch confirmation text (part_000 line 245): chooses the mode word
by JavaScript truthiness of the raw args.headless field. -/
def launchConfirmText (a : RawArgs) : String :=
  "Browser launched successfully in " ++
    (if jsTruthyB a.headless then "headless" else "headed") ++ " mode"

/-- The tail of launchBrowser after the close-if-open step (part_000 lines
238-248): launches a new browser and opens a page, assigning each session
field as the corresponding engine call returns. -/
def launchAndOpen (E : Engine) (a : RawArgs) (s0 : Session) :
    Session × Except String Envelope :=
  match E.launch (launchEngineOptions a) with
  | .error e => (s0, .error e)
  | .ok b =>
    match E.newPage b with
    | .error e => ({ s0 with browser := some b }, .error e)
    | .ok p =>
      ({ browser := some b, page := some p }, .ok [ContentItem.text (launchConfirmText a)])

/-- launchBrowser (part_000 lines 222-249, http-server.ts 254-319): closes
an already-open browser first (without clearing the fields), then runs the
launch-and-open sequence. -/
def launchBrowser (E : Engine) (s : Session) (a : RawArgs) :
    Session × Except String Envelope :=
  match s.browser with
  | some b =>
    match E.closeB b with
    | .error e => (s, .error e)
    | .ok _ => launchAndOpen E a s
  | none => launchAndOpen E a s

/-- navigate (part_000 lines 251-265): parse, ensure, goto, confirm. -/
def navigate (E : Engine) (urlValid : String → Bool) (s : Session) (a : RawArgs) :
    Session × Except String Envelope :=
  match NavigateSchema.parse urlValid a with
  | .error e => (s, .error e)
  | .ok pa =>
    match ensureBrowserAndPage E s with
    | (s1, .error e) => (s1, .error e)
    | (s1, .ok p) =>
      match E.goto p pa.url pa.waitUntil with
      | .error e => (s1, .error e)
      | .ok _ => (s1, .ok [ContentItem.text ("Navigated to: " ++ pa.url)])

/-- The screenshot options object (part_000 lines 271-274): fullPage and
type always; quality added only when format is jpeg and the parsed quality
value is truthy. -/
def screenshotOptions (fullPage : Bool) (format : ImageFormat) (quality : Option Int) :
    ShotOptions :=
  let options : ShotOptions := { fullPage := fullPage, shotType := format, quality := none }
  if format = ImageFormat.jpeg ∧ jsTruthyNum quality then { options with quality := quality }
  else options

/-- screenshot (part_000 lines 267-295): parse, ensure, capture, then a
text item plus a base64 image item; a falsy capture result throws. -/
def screenshot (E : Engine) (s : Session) (a : RawArgs) :
    Session × Except String Envelope :=
  match ScreenshotSchema.parse a with
  | .error e => (s, .error e)
  | .ok pa =>
    match ensureBrowserAndPage E s with
    | (s1, .error e) => (s1, .error e)
    | (s1, .ok p) =>
      match E.shot p (screenshotOptions pa.fullPage pa.format pa.quality) with
      | .error e => (s1, .error e)
      | .ok none => (s1, .error "Failed to capture screenshot")
      | .ok (some data) =>
        (s1, .ok [ContentItem.text
                    ("Screenshot taken (" ++ pa.format.toStr ++ ", fullPage: " ++
                      toString pa.fullPage ++ ")"),
                  ContentItem.image (E.toBase64 data) ("image/" ++ pa.format.toStr)])

/-- getText (part_000 lines 297-320): parse, ensure; a truthy selector is
queried and a missing element throws naming it, the element text with
null-to-empty fallback otherwise; a falsy selector reads the body text with
the same fallback. -/
def getText (E : Engine) (s : Session) (a : RawArgs) :
    Session × Except String Envelope :=
  match GetTextSchema.parse a with
  | .error e => (s, .error e)
  | .ok selector =>
    match ensureBrowserAndPage E s with
    | (s1, .error e) => (s1, .error e)
    | (s1, .ok p) =>
      if jsTruthyStr selector then
        match selector with
        | some sel =>
          match E.query p sel with
          | .error e => (s1, .error e)
          | .ok none => (s1, .error ("Element not found: " ++ sel))
          | .ok (some el) =>
            match E.elementText p el with
            | .error e => (s1, .error e)
            | .ok t =>
              (s1, .ok [ContentItem.text ("Text from " ++ sel ++ ": " ++ t.getD "")])
        | none => (s1, .error "unreachable")
      else
        match E.bodyText p with
        | .error e => (s1, .error e)
        | .ok t => (s1, .ok [ContentItem.text ("Page text: " ++ t.getD "")])

/-- click (part_000 lines 322-336): parse, ensure, engine click, confirm. -/
def click (E : Engine) (s : Session) (a : RawArgs) :
    Session × Except String Envelope :=
  match ClickSchema.parse a with
  | .error e => (s, .error e)
  | .ok sel =>
    match ensureBrowserAndPage E s with
    | (s1, .error e) => (s1, .error e)
    | (s1, .ok p) =>
      match E.clickE p sel with
      | .error e => (s1, .error e)
      | .ok _ => (s1, .ok [ContentItem.text ("Clicked element: " ++ sel)])

/-- type (part_000 lines 338-352): parse, ensure, engine type, confirm. -/
def typeTool (E : Engine) (s : Session) (a : RawArgs) :
    Session × Except String Envelope :=
  match TypeSchema.parse a with
  | .error e => (s, .error e)
  | .ok (sel, t) =>
    match ensureBrowserAndPage E s with
    | (s1, .error e) => (s1, .error e)
    | (s1, .ok p) =>
      match E.typeE p sel t with
      | .error e => (s1, .error e)
      | .ok _ =>
        (s1, .ok [ContentItem.text ("Typed \"" ++ t ++ "\" into " ++ sel)])

/-- evaluate (part_000 lines 354-370): parse, ensure, run the script in the
page context, report the serialized result. -/
def evaluate (E : Engine) (s : Session) (a : RawArgs) :
    Session × Except String Envelope :=
  match EvaluateSchema.parse a with
  | .error e => (s, .error e)
  | .ok sc =>
    match ensureBrowserAndPage E s with
    | (s1, .error e) => (s1, .error e)
    | (s1, .ok p) =>
      match E.evalScript p sc with
      | .error e => (s1, .error e)
      | .ok r => (s1, .ok [ContentItem.text ("Script result: " ++ r)])

/-- closeBrowser (part_000 lines 372-387, http-server.ts 442-457): closes
and clears both fields when a browser is open, does nothing otherwise, and
returns the same success confirmation either way. -/
def closeBrowser (E : Engine) (s : Session) :
    Session × Except String Envelope :=
  match s.browser with
  | some b =>
    match E.closeB b with
    | .error e => (s, .error e)
    | .ok _ =>
      ({ browser := none, page := none }, .ok [ContentItem.text "Browser closed successfully"])
  | none => (s, .ok [ContentItem.text "Browser closed successfully"])

/-- The eight tool names of the dispatch switch. -/
def toolNames : List String :=
  ["puppeteer_launch", "puppeteer_navigate", "puppeteer_screenshot",
   "puppeteer_get_text", "puppeteer_click", "puppeteer_type",
   "puppeteer_evaluate", "puppeteer_close"]

/-- The try-block of the CallTool handler (part_000 lines 180-199): the
switch on the tool name, with the default branch throwing the unknown-tool
message. -/
def dispatch (E : Engine) (urlValid : String → Bool) (s : Session)
    (name : String) (a : RawArgs) : Session × Except String Envelope :=
  if name = "puppeteer_launch" then launchBrowser E s a
  else if name = "puppeteer_navigate" then navigate E urlValid s a
  else if name = "puppeteer_screenshot" then screenshot E s a
  else if name = "puppeteer_get_text" then getText E s a
  else if name = "puppeteer_click" then click E s a
  else if name = "puppeteer_type" then typeTool E s a
  else if name = "puppeteer_evaluate" then evaluate E s a
  else if name = "puppeteer_close" then closeBrowser E s
  else (s, .error ("Unknown tool: " ++ name))

/-- The full CallTool handler (part_000 lines 176-210): the try/catch that
converts any thrown message into a single-text-item error envelope, so the
handler always returns an envelope. -/
def execute (E : Engine) (urlValid : String → Bool) (s : Session)
    (name : String) (a : RawArgs) : Session × Envelope :=
  match dispatch E urlValid s name a with
  | (s1, .ok env) => (s1, env)
  | (s1, .error msg) => (s1, [ContentItem.text ("Error: " ++ msg)])

/-- A tool descriptor of the static catalog: the name, the human
description, the property names of the input schema object, and its
required list (absent required key modelled as the empty list). -/
structure ToolDescriptor where
  name : String
  description : String
  propNames : List String
  required : List String
deriving DecidableEq

/-- The ListTools response of the stdio variant (part_000 lines 70-174),
descriptor by descriptor in source order. -/
def listToolsStdio : List ToolDescriptor :=
  [{ name := "puppeteer_launch",
     description := "Launch a new browser instance",
     propNames := ["headless", "viewport"],
     required := [] },
   { name := "puppeteer_navigate",
     description := "Navigate to a URL",
     propNames := ["url", "waitUntil"],
     required := ["url"] },
   { name := "puppeteer_screenshot",
     description := "Take a screenshot of the current page",
     propNames := ["fullPage", "format", "quality"],
     required := [] },
   { name := "puppeteer_get_text",
     description := "Get text content from the page or a specific selector",
     propNames := ["selector"],
     required := [] },
   { name := "puppeteer_click",
     description := "Click on an element",
     propNames := ["selector"],
     required := ["selector"] },
   { name := "puppeteer_type",
     description := "Type text into an input field",
     propNames := ["selector", "text"],
     required := ["selector", "text"] },
   { name := "puppeteer_evaluate",
     description := "Execute JavaScript in the browser context",
     propNames := ["script"],
     required := ["script"] },
   { name := "puppeteer_close",
     description := "Close the browser instance",
     propNames := [],
     required := [] }]

/-- The ListTools response of the HTTP variant (http-server.ts lines
77-181), descriptor by descriptor in source order. -/
def listToolsHttp : List ToolDescriptor :=
  [{ name := "puppeteer_launch",
     description := "Launch a new browser instance",
     propNames := ["headless", "viewport"],
     required := [] },
   { name := "puppeteer_navigate",
     description := "Navigate to a URL",
     propNames := ["url", "waitUntil"],
     required := ["url"] },
   { name := "puppeteer_screenshot",
     description := "Take a screenshot of the current page",
     propNames := ["fullPage", "format", "quality"],
     required := [] },
   { name := "puppeteer_get_text",
     description := "Get text content from the page or a specific selector",
     propNames := ["selector"],
     required := [] },
   { name := "puppeteer_click",
     description := "Click on an element",
     propNames := ["selector"],
     required := ["selector"] },
   { name := "puppeteer_type",
     description := "Type text into an input field",
     propNames := ["selector", "text"],
     required := ["selector", "text"] },
   { name := "puppeteer_evaluate",
     description := "Execute JavaScript in the browser context",
     propNames := ["script"],
     required := ["script"] },
   { name := "puppeteer_close",
     description := "Close the browser instance",
     propNames := [],
     required := [] }]

/-! Concrete engines and sessions used to evaluate the model on explicit
inputs. -/

/-- An engine on which every call succeeds with fixed results. -/
def okEngine : Engine :=
  { launch := fun _ => .ok { id := 1 },
    newPage := fun _ => .ok { id := 1 },
    closeB := fun _ => .ok (),
    goto := fun _ _ _ => .ok (),
    shot := fun _ _ => .ok (some "IMGDATA"),
    query := fun _ _ => .ok (some { id := 1 }),
    elementText := fun _ _ => .ok (some "element text"),
    bodyText := fun _ => .ok (some "hello"),
    clickE := fun _ _ => .ok (),
    typeE := fun _ _ _ => .ok (),
    evalScript := fun _ _ => .ok "2",
    toBase64 := fun d => d }

/-- An engine whose launch call always throws and whose other calls behave
like okEngine. -/
def failLaunchEngine : Engine :=
  { okEngine with launch := fun _ => .error "spawn chrome ENOENT" }

/-- An engine on which every selector query reports zero matches. -/
def noMatchEngine : Engine :=
  { okEngine with query := fun _ _ => .ok none }

/-- A session with a browser and a page open. -/
def readySession : Session := { browser := some { id := 0 }, page := some { id := 0 } }

/-! Session invariant and its preservation lemmas, shared by the claim
theorems. -/

/-- The session invariant: a page handle is present only when a browser
handle is present. -/
def sessionInv (s : Session) : Prop := s.page.isSome → s.browser.isSome

instance (s : Session) : Decidable (sessionInv s) := by
  unfold sessionInv; infer_instance

theorem sessionInv_ensure (E : Engine) (s : Session) (h : sessionInv s) :
    sessionInv (ensureBrowserAndPage E s).1 := by
  rcases hb : s.browser with _ | b
  · simp [ensureBrowserAndPage, hb]; exact h
  · rcases hp : s.page with _ | p
    · rcases hE : E.newPage b with e | p
      · simp [ensureBrowserAndPage, hb, hp, hE]; exact h
      · simp [ensureBrowserAndPage, hb, hp, hE, sessionInv, hb]
    · simp [ensureBrowserAndPage, hb, hp]; exact h

theorem sessionInv_launchAndOpen (E : Engine) (a : RawArgs) (s0 : Session)
    (h : sessionInv s0) : sessionInv (launchAndOpen E a s0).1 := by
  rcases hL : E.launch (launchEngineOptions a) with e | b
  · simp [launchAndOpen, hL]; exact h
  · rcases hP : E.newPage b with e | p
    · simp [launchAndOpen, hL, hP, sessionInv]
    · simp [launchAndOpen, hL, hP, sessionInv]

theorem sessionInv_launch (E : Engine) (s : Session) (a : RawArgs) (h : sessionInv s) :
    sessionInv (launchBrowser E s a).1 := by
  rcases hb : s.browser with _ | b
  · simp only [launchBrowser, hb]
    exact sessionInv_launchAndOpen E a s h
  · rcases hc : E.closeB b with e | u
    · simp [launchBrowser, hb, hc]; exact h
    · simp only [launchBrowser, hb, hc]
      exact sessionInv_launchAndOpen E a s h

theorem sessionInv_close (E : Engine) (s : Session) (h : sessionInv s) :
    sessionInv (closeBrowser E s).1 := by
  rcases hb : s.browser with _ | b
  · simp [closeBrowser, hb]; exact h
  · rcases hc : E.closeB b with e | u
    · simp [closeBrowser, hb, hc]; exact h
    · simp [closeBrowser, hb, hc, sessionInv]

theorem sessionInv_of_state_cases (E : Engine) (s : Session) {t : Session}
    (h : sessionInv s) (hc : t = s ∨ t = (ensureBrowserAndPage E s).1) :
    sessionInv t := by
  rcases hc with rfl | rfl
  · exact h
  · exact sessionInv_ensure E s h

theorem navigate_state (E : Engine) (uv : String → Bool) (s : Session) (a : RawArgs) :
    (navigate E uv s a).1 = s ∨ (navigate E uv s a).1 = (ensureBrowserAndPage E s).1 := by
  rcases hp : NavigateSchema.parse uv a with e | pa
  · left; simp [navigate, hp]
  · rcases hEn : ensureBrowserAndPage E s with ⟨s1, r⟩
    rcases r with e | p
    · right; simp [navigate, hp, hEn]
    · rcases hg : E.goto p pa.url pa.waitUntil with e | u
      · right; simp [navigate, hp, hEn, hg]
      · right; simp [navigate, hp, hEn, hg]

theorem screenshot_state (E : Engine) (s : Session) (a : RawArgs) :
    (screenshot E s a).1 = s ∨ (screenshot E s a).1 = (ensureBrowserAndPage E s).1 := by
  rcases hp : ScreenshotSchema.parse a with e | pa
  · left; simp [screenshot, hp]
  · rcases hEn : ensureBrowserAndPage E s with ⟨s1, r⟩
    rcases r with e | p
    · right; simp [screenshot, hp, hEn]
    · rcases hs : E.shot p (screenshotOptions pa.fullPage pa.format pa.quality) with e | d
      · right; simp [screenshot, hp, hEn, hs]
      · rcases d with _ | d
        · right; simp [screenshot, hp, hEn, hs]
        · right; simp [screenshot, hp, hEn, hs]

theorem getText_state (E : Engine) (s : Session) (a : RawArgs) :
    (getText E s a).1 = s ∨ (getText E s a).1 = (ensureBrowserAndPage E s).1 := by
  right
  rcases hEn : ensureBrowserAndPage E s with ⟨s1, r⟩
  rcases r with e | p
  · simp [getText, GetTextSchema.parse, hEn]
  · simp only [getText, GetTextSchema.parse, hEn]
    split
    · rcases hsel : a.selector with _ | sel
      · simp
      · rcases hq : E.query p sel with e | el
        · simp [hq]
        · rcases el with _ | el
          · simp [hq]
          · rcases he : E.elementText p el with e | t
            · simp [hq, he]
            · simp [hq, he]
    · rcases hbt : E.bodyText p with e | t
      · simp [hbt]
      · simp [hbt]

theorem click_state (E : Engine) (s : Session) (a : RawArgs) :
    (click E s a).1 = s ∨ (click E s a).1 = (ensureBrowserAndPage E s).1 := by
  rcases hp : ClickSchema.parse a with e | sel
  · left; simp [click, hp]
  · rcases hEn : ensureBrowserAndPage E s with ⟨s1, r⟩
    rcases r with e | p
    · right; simp [click, hp, hEn]
    · rcases hc : E.clickE p sel with e | u
      · right; simp [click, hp, hEn, hc]
      · right; simp [click, hp, hEn, hc]

theorem typeTool_state (E : Engine) (s : Session) (a : RawArgs) :
    (typeTool E s a).1 = s ∨ (typeTool E s a).1 = (ensureBrowserAndPage E s).1 := by
  rcases hp : TypeSchema.parse a with e | st
  · left; simp [typeTool, hp]
  · rcases st with ⟨sel, t⟩
    rcases hEn : ensureBrowserAndPage E s with ⟨s1, r⟩
    rcases r with e | p
    · right; simp [typeTool, hp, hEn]
    · rcases hc : E.typeE p sel t with e | u
      · right; simp [typeTool, hp, hEn, hc]
      · right; simp [typeTool, hp, hEn, hc]

theorem evaluate_state (E : Engine) (s : Session) (a : RawArgs) :
    (evaluate E s a).1 = s ∨ (evaluate E s a).1 = (ensureBrowserAndPage E s).1 := by
  rcases hp : EvaluateSchema.parse a with e | sc
  · left; simp [evaluate, hp]
  · rcases hEn : ensureBrowserAndPage E s with ⟨s1, r⟩
    rcases r with e | p
    · right; simp [evaluate, hp, hEn]
    · rcases hc : E.evalScript p sc with e | res
      · right; simp [evaluate, hp, hEn, hc]
      · right; simp [evaluate, hp, hEn, hc]

theorem sessionInv_dispatch (E : Engine) (uv : String → Bool) (s : Session)
    (n : String) (a : RawArgs) (h : sessionInv s) :
    sessionInv (dispatch E uv s n a).1 := by
  unfold dispatch
  split_ifs
  · exact sessionInv_launch E s a h
  · exact sessionInv_of_state_cases E s h (navigate_state E uv s a)
  · exact sessionInv_of_state_cases E s h (screenshot_state E s a)
  · exact sessionInv_of_state_cases E s h (getText_state E s a)
  · exact sessionInv_of_state_cases E s h (click_state E s a)
  · exact sessionInv_of_state_cases E s h (typeTool_state E s a)
  · exact sessionInv_of_state_cases E s h (evaluate_state E s a)
  · exact sessionInv_close E s h
  · exact h

theorem sessionInv_execute (E : Engine) (uv : String → Bool) (s : Session)
    (n : String) (a : RawArgs) (h : sessionInv s) :
    sessionInv (execute E uv s n a).1 := by
  have hd := sessionInv_dispatch E uv s n a h
  rcases hD : dispatch E uv s n a with ⟨s1, r⟩
  rw [hD] at hd
  rcases r with e | env
  · simpa [execute, hD] using hd
  · simpa [execute, hD] using hd

/-! Claim theorems. -/

/-- C1 counterexample: a supplied quality of 0 with format jpeg is NOT
forwarded to the engine, because the handler guards the forwarding with
JavaScript truthiness of the quality value and 0 is falsy. -/
theorem C1_quality_zero_not_forwarded :
    (screenshotOptions false ImageFormat.jpeg (some 0)).quality = none := rfl

/-- C1 (amended): the quality argument is forwarded to the engine, with its
supplied value, if and only if the validated format is jpeg and the caller
supplied a nonzero quality; in particular quality with format png or webp
is never forwarded, and a supplied quality of 0 is dropped even for jpeg. -/
theorem C1_quality_forwarding (fp : Bool) (fmt : ImageFormat) (q : Option Int) (n : Int) :
    (screenshotOptions fp fmt q).quality = some n ↔
      fmt = ImageFormat.jpeg ∧ q = some n ∧ n ≠ 0 := by
  constructor
  · intro h
    unfold screenshotOptions at h
    split at h
    · rename_i hc
      rcases hc with ⟨hf, ht⟩
      have hq : q = some n := by simpa using h
      refine ⟨hf, hq, ?_⟩
      rw [hq] at ht
      simpa [jsTruthyNum] using ht
    · simp at h
  · rintro ⟨hf, hq, hn⟩
    subst hf; subst hq
    simp [screenshotOptions, jsTruthyNum, hn]

/-- C1 witness: a nonzero jpeg quality of 50 is forwarded verbatim. -/
theorem C1_quality_forwarding_witness :
    (screenshotOptions false ImageFormat.jpeg (some 50)).quality = some 50 :=
  (C1_quality_forwarding false ImageFormat.jpeg (some 50) 50).2 ⟨rfl, rfl, by decide⟩

/-- C2: evaluation at the failing input. Starting from an open session, a
launch whose engine launch call throws (after the old browser was closed)
leaves the session fields UNCHANGED: the browser field still holds the
stale handle, and a get_text invoked immediately afterwards does not fail
with the not-launched message but succeeds against the stale page. This
contradicts the claim that such a failed launch leaves no browser open. -/
theorem C2_stale_browser_after_failed_launch :
    (launchBrowser failLaunchEngine readySession {}).1 = readySession
    ∧ (launchBrowser failLaunchEngine readySession {}).2 = .error "spawn chrome ENOENT"
    ∧ getText failLaunchEngine (launchBrowser failLaunchEngine readySession {}).1 {} =
        (readySession, .ok [ContentItem.text "Page text: hello"]) :=
  ⟨rfl, rfl, rfl⟩

/-- C3: the CallTool handler never raises. Whenever the dispatch switch
throws a message, the handler returns an envelope holding exactly one text
item reading Error: followed by the message; and a name outside the eight
catalog names yields the envelope whose message is Unknown tool: followed
by the name. -/
theorem C3_executor_error_envelope (E : Engine) (uv : String → Bool) (s : Session)
    (n : String) (a : RawArgs) :
    (∀ s1 msg, dispatch E uv s n a = (s1, .error msg) →
        execute E uv s n a = (s1, [ContentItem.text ("Error: " ++ msg)]))
    ∧ (n ∉ toolNames →
        execute E uv s n a = (s, [ContentItem.text ("Error: " ++ ("Unknown tool: " ++ n))])) := by
  constructor
  · intro s1 msg hD
    simp [execute, hD]
  · intro hn
    simp only [toolNames, List.mem_cons, List.not_mem_nil, or_false, not_or] at hn
    obtain ⟨h1, h2, h3, h4, h5, h6, h7, h8⟩ := hn
    simp [execute, dispatch, h1, h2, h3, h4, h5, h6, h7, h8]

/-- C3 witness: the unknown name bogus yields the unknown-tool envelope. -/
theorem C3_executor_witness :
    execute okEngine (fun _ => true) initialSession "bogus" {} =
      (initialSession, [ContentItem.text "Error: Unknown tool: bogus"]) := by
  have h := (C3_executor_error_envelope okEngine (fun _ => true) initialSession "bogus" {}).2
    (by decide)
  simpa using h

/-- C4: with no browser handle present, every page-operation tool invoked
with arguments its schema accepts fails with the not-launched message and
leaves the session exactly as it was (no browser or page handle created);
the message contains the words not launched. -/
theorem C4_page_ops_not_launched (E : Engine) (uv : String → Bool) (s : Session)
    (hb : s.browser = none) :
    (∀ a pa, NavigateSchema.parse uv a = .ok pa →
        navigate E uv s a = (s, .error notLaunchedMsg))
    ∧ (∀ a pa, ScreenshotSchema.parse a = .ok pa →
        screenshot E s a = (s, .error notLaunchedMsg))
    ∧ (∀ a, getText E s a = (s, .error notLaunchedMsg))
    ∧ (∀ a sel, ClickSchema.parse a = .ok sel →
        click E s a = (s, .error notLaunchedMsg))
    ∧ (∀ a st, TypeSchema.parse a = .ok st →
        typeTool E s a = (s, .error notLaunchedMsg))
    ∧ (∀ a sc, EvaluateSchema.parse a = .ok sc →
        evaluate E s a = (s, .error notLaunchedMsg))
    ∧ notLaunchedMsg = "Browser " ++ "not launched" ++ ". Use puppeteer_launch first." := by
  have hEn : ensureBrowserAndPage E s = (s, .error notLaunchedMsg) := by
    simp [ensureBrowserAndPage, hb]
  refine ⟨?_, ?_, ?_, ?_, ?_, ?_, rfl⟩
  · intro a pa hp; simp [navigate, hp, hEn]
  · intro a pa hp; simp [screenshot, hp, hEn]
  · intro a; simp [getText, GetTextSchema.parse, hEn]
  · intro a sel hp; simp [click, hp, hEn]
  · intro a st hp
    rcases st with ⟨sel, t⟩
    simp [typeTool, hp, hEn]
  · intro a sc hp; simp [evaluate, hp, hEn]

/-- C4 witness: navigate with a valid URL before launch fails with the
not-launched message and does not touch the initial session. -/
theorem C4_page_ops_witness :
    navigate okEngine (fun _ => true) initialSession { url := some "https://example.com" } =
      (initialSession, .error notLaunchedMsg) :=
  (C4_page_ops_not_launched okEngine (fun _ => true) initialSession rfl).1
    { url := some "https://example.com" }
    { url := "https://example.com", waitUntil := WaitUntil.load } rfl

/-- C5: whenever a schema rejects the arguments, the operation returns the
validation message and the session is untouched, for every engine and every
session (in particular with no browser launched); screenshot quality 150 is
rejected as above 100, and a navigate url failing the URL check is rejected
with the URL message. -/
theorem C5_validation_before_session (E : Engine) (uv : String → Bool) (s : Session) :
    (∀ a msg, NavigateSchema.parse uv a = .error msg → navigate E uv s a = (s, .error msg))
    ∧ (∀ a msg, ScreenshotSchema.parse a = .error msg → screenshot E s a = (s, .error msg))
    ∧ (∀ a msg, ClickSchema.parse a = .error msg → click E s a = (s, .error msg))
    ∧ (∀ a msg, TypeSchema.parse a = .error msg → typeTool E s a = (s, .error msg))
    ∧ (∀ a msg, EvaluateSchema.parse a = .error msg → evaluate E s a = (s, .error msg))
    ∧ ScreenshotSchema.parse { quality := some 150 } =
        .error "Number must be less than or equal to 100"
    ∧ (∀ u, uv u = false →
        NavigateSchema.parse uv { url := some u } = .error "Must be a valid URL") := by
  refine ⟨?_, ?_, ?_, ?_, ?_, by norm_num [ScreenshotSchema.parse], ?_⟩
  · intro a msg hp; simp [navigate, hp]
  · intro a msg hp; simp [screenshot, hp]
  · intro a msg hp; simp [click, hp]
  · intro a msg hp; simp [typeTool, hp]
  · intro a msg hp; simp [evaluate, hp]
  · intro u hu; simp [NavigateSchema.parse, hu]

/-- C5 witness: screenshot with quality 150 returns the range message and
leaves the launched-free session unchanged, for a concrete engine. -/
theorem C5_validation_witness :
    screenshot okEngine initialSession { quality := some 150 } =
      (initialSession, .error "Number must be less than or equal to 100") :=
  (C5_validation_before_session okEngine (fun _ => true) initialSession).2.1
    { quality := some 150 } "Number must be less than or equal to 100"
    (by norm_num [ScreenshotSchema.parse])

/-- C6 counterexample: the empty-string selector is supplied and the engine
reports zero matches for it, yet get_text does not fail naming the
selector: JavaScript truthiness routes the empty string to the
whole-page path and the invocation succeeds. -/
theorem C6_empty_selector_counterexample :
    getText noMatchEngine readySession { selector := some "" } =
      (readySession, .ok [ContentItem.text "Page text: hello"]) := rfl

/-- C6 (amended): with a NONEMPTY selector matching zero elements, get_text
fails with an error naming that selector; with no selector (or an
empty-string selector, which the handler treats as absent), it returns the
document body text, absent text content read as the empty string. -/
theorem C6_getText_behaviour (E : Engine) (s s1 : Session) (p : PageHandle)
    (hEn : ensureBrowserAndPage E s = (s1, .ok p)) :
    (∀ sel, sel ≠ "" → E.query p sel = .ok none →
        getText E s { selector := some sel } = (s1, .error ("Element not found: " ++ sel)))
    ∧ (∀ t, E.bodyText p = .ok t →
        getText E s { selector := none } =
          (s1, .ok [ContentItem.text ("Page text: " ++ t.getD "")])) := by
  constructor
  · intro sel hne hq
    simp [getText, GetTextSchema.parse, hEn, jsTruthyStr, hne, hq]
  · intro t ht
    simp [getText, GetTextSchema.parse, hEn, jsTruthyStr, ht]

/-- C6 witness: a missing nonempty selector fails naming it, and the
no-selector form returns the body text. -/
theorem C6_getText_witness :
    getText noMatchEngine readySession { selector := some "#missing" } =
      (readySession, .error "Element not found: #missing")
    ∧ getText noMatchEngine readySession { selector := none } =
      (readySession, .ok [ContentItem.text "Page text: hello"]) := by
  have h := C6_getText_behaviour noMatchEngine readySession readySession { id := 0 } rfl
  constructor
  · simpa using h.1 "#missing" (by decide) rfl
  · simpa using h.2 (some "hello") rfl

/-- C7: close is idempotent at the interface: with no browser open it
mutates nothing and still returns the success confirmation; with a browser
open whose engine close succeeds it clears both handles, and a close run on
the resulting cleared session again returns the success confirmation. -/
theorem C7_close_idempotent (E : Engine) (s : Session) :
    (s.browser = none →
        closeBrowser E s = (s, .ok [ContentItem.text "Browser closed successfully"]))
    ∧ (∀ b, s.browser = some b → E.closeB b = .ok () →
        closeBrowser E s =
          ({ browser := none, page := none },
           .ok [ContentItem.text "Browser closed successfully"]))
    ∧ closeBrowser E { browser := none, page := none } =
        ({ browser := none, page := none },
         .ok [ContentItem.text "Browser closed successfully"]) := by
  refine ⟨?_, ?_, by simp [closeBrowser]⟩
  · intro hb; simp [closeBrowser, hb]
  · intro b hb hc; simp [closeBrowser, hb, hc]

/-- C7 witness: closing an open session clears both handles and succeeds. -/
theorem C7_close_idempotent_witness :
    closeBrowser okEngine readySession =
      ({ browser := none, page := none },
       .ok [ContentItem.text "Browser closed successfully"]) :=
  (C7_close_idempotent okEngine readySession).2.1 { id := 0 } rfl rfl

/-- C8: the invariant page-present-implies-browser-present holds of the
initial session and is preserved by every operation, for every engine,
argument object and tool name, including every failing run: launch, the
lazy page creation of ensureBrowserAndPage, each page operation, close,
and the full CallTool handler. -/
theorem C8_session_invariant (E : Engine) (uv : String → Bool) (s : Session)
    (n : String) (a : RawArgs) (h : sessionInv s) :
    sessionInv initialSession
    ∧ sessionInv (ensureBrowserAndPage E s).1
    ∧ sessionInv (launchBrowser E s a).1
    ∧ sessionInv (navigate E uv s a).1
    ∧ sessionInv (screenshot E s a).1
    ∧ sessionInv (getText E s a).1
    ∧ sessionInv (click E s a).1
    ∧ sessionInv (typeTool E s a).1
    ∧ sessionInv (evaluate E s a).1
    ∧ sessionInv (closeBrowser E s).1
    ∧ sessionInv (execute E uv s n a).1 :=
  ⟨by decide,
   sessionInv_ensure E s h,
   sessionInv_launch E s a h,
   sessionInv_of_state_cases E s h (navigate_state E uv s a),
   sessionInv_of_state_cases E s h (screenshot_state E s a),
   sessionInv_of_state_cases E s h (getText_state E s a),
   sessionInv_of_state_cases E s h (click_state E s a),
   sessionInv_of_state_cases E s h (typeTool_state E s a),
   sessionInv_of_state_cases E s h (evaluate_state E s a),
   sessionInv_close E s h,
   sessionInv_execute E uv s n a h⟩

/-- C8 witness: the invariant is preserved by a concrete close call on an
open session. -/
theorem C8_session_invariant_witness :
    sessionInv (execute okEngine (fun _ => true) readySession "puppeteer_close"
      ({} : RawArgs)).1 :=
  (C8_session_invariant okEngine (fun _ => true) readySession "puppeteer_close" {}
    (by decide)).2.2.2.2.2.2.2.2.2.2

/-- C9: the catalog is a pure value, identical in the stdio and HTTP
variants, lists exactly eight tools, in order the eight dispatch names, and
its required fields are exactly those of the table: navigate requires url,
click requires selector, type requires selector and text, evaluate requires
script, and launch, screenshot, get_text and close require nothing. -/
theorem C9_catalog :
    listToolsStdio = listToolsHttp
    ∧ listToolsStdio.length = 8
    ∧ listToolsStdio.map ToolDescriptor.name = toolNames
    ∧ listToolsStdio.map (fun d => (d.name, d.required)) =
        [("puppeteer_launch", []), ("puppeteer_navigate", ["url"]),
         ("puppeteer_screenshot", []), ("puppeteer_get_text", []),
         ("puppeteer_click", ["selector"]), ("puppeteer_type", ["selector", "text"]),
         ("puppeteer_evaluate", ["script"]), ("puppeteer_close", [])] :=
  ⟨rfl, rfl, rfl, rfl⟩

/-- C10: when headless is omitted the engine options carry headless = true
(the nullish default), yet the confirmation text is computed from the
truthiness of the raw field and therefore reads headed; on a successful
launch the returned envelope carries exactly that headed-mode text. -/
theorem C10_headless_omitted (a : RawArgs) (h : a.headless = none) :
    (launchEngineOptions a).headless = true
    ∧ launchConfirmText a = "Browser launched successfully in headed mode"
    ∧ (∀ E s b p, s.browser = none →
        E.launch (launchEngineOptions a) = .ok b → E.newPage b = .ok p →
        launchBrowser E s a =
          ({ browser := some b, page := some p },
           .ok [ContentItem.text (launchConfirmText a)])) := by
  refine ⟨by simp [launchEngineOptions, h], ?_, ?_⟩
  · have ht : jsTruthyB a.headless = false := by rw [h]; rfl
    simp [launchConfirmText, ht]
  · intro E s b p hb hL hP
    simp [launchBrowser, hb, launchAndOpen, hL, hP]

/-- C10 witness: a concrete launch with headless omitted succeeds and its
confirmation text is the headed-mode string. -/
theorem C10_headless_omitted_witness :
    launchBrowser okEngine initialSession ({} : RawArgs) =
      ({ browser := some { id := 1 }, page := some { id := 1 } },
       .ok [ContentItem.text (launchConfirmText {})])
    ∧ launchConfirmText ({} : RawArgs) = "Browser launched successfully in headed mode" := by
  have h := C10_headless_omitted ({} : RawArgs) rfl
  exact ⟨h.2.2 okEngine initialSession { id := 1 } { id := 1 } rfl rfl rfl, h.2.1⟩

end PuppeteerMCP
